import Mathlib

/-!
Shallow embedding of the duckli CLI (source/cli.tsx: the cli entry script and
the App component) for verification of its configuration-resolution state
machine, model-catalog pipeline and chat-session protocol.

Modelling conventions:
- JavaScript string truthiness (empty string is falsy) is modelled by
  truthyS / truthyO; the JS operator "a || b" on strings is modelled by jsOr
  and jsOrStr.
- A JS value that may be undefined is modelled as an Option.
- String.prototype.trim, String.prototype.includes and localeCompare are
  modelled on the character-list representation of strings so that all
  definitions evaluate inside the kernel.
- React state is flattened into the AppState structure; each useEffect body
  and each handler becomes a function from AppState to AppState (plus the
  value it would persist or the request it would issue, where relevant).
-/

namespace Duckli

/-- JS truthiness of a string: the empty string is falsy. -/
def truthyS (s : String) : Bool := !(s == "")

/-- JS truthiness of a possibly-undefined string. -/
def truthyO : Option String → Bool
  | none => false
  | some s => truthyS s

/-- Models the JS expression "o || d" where o may be undefined. -/
def jsOr (o : Option String) (d : String) : String :=
  match o with
  | some s => if truthyS s then s else d
  | none => d

/-- Models the JS expression "s || d" on two strings. -/
def jsOrStr (s d : String) : String := if truthyS s then s else d

/-- Character-list version of String.prototype.trim. -/
def trimChars (l : List Char) : List Char :=
  ((l.dropWhile Char.isWhitespace).reverse.dropWhile Char.isWhitespace).reverse

/-- Models String.prototype.trim. -/
def jsTrim (s : String) : String := ⟨trimChars s.data⟩

/-- Whether the second list occurs at the start of the first. -/
def charListStartsWith : List Char → List Char → Bool
  | _, [] => true
  | [], _ :: _ => false
  | a :: as, b :: bs => a == b && charListStartsWith as bs

/-- Whether pat occurs as a contiguous run anywhere in the list. -/
def charListContains (pat : List Char) : List Char → Bool
  | [] => charListStartsWith [] pat
  | x :: xs => charListStartsWith (x :: xs) pat || charListContains pat xs

/-- Models String.prototype.includes. -/
def strIncludes (s pat : String) : Bool := charListContains pat.data s.data

/-- Three-way lexicographic comparison of character lists, used to model
String.prototype.localeCompare as a total order on strings. -/
def cmpCharList : List Char → List Char → Ordering
  | [], [] => .eq
  | [], _ :: _ => .lt
  | _ :: _, [] => .gt
  | a :: as, b :: bs =>
    if a.toNat < b.toNat then .lt
    else if b.toNat < a.toNat then .gt
    else cmpCharList as bs

/-- Models a.localeCompare(b): negative, zero or positive. -/
def localeCompare (a b : String) : Int :=
  match cmpCharList a.data b.data with
  | .lt => -1
  | .eq => 0
  | .gt => 1

/-- Message roles occurring in transcripts and request bodies. -/
inductive ChatRole
  | system
  | user
  | assistant
deriving DecidableEq, Repr

/-- A chat message (interface Message in cli.tsx, plus the system role used
in request bodies). content is an Option so that the JS undefined value
arising from a missing response field can be represented; every message the
code itself constructs carries some string. -/
structure Message where
  role : ChatRole
  content : Option String
deriving DecidableEq, Repr

/-- Pricing of a model entry (interface Model in cli.tsx). -/
structure Pricing where
  prompt : Int
  completion : Int
deriving DecidableEq, Repr

/-- A normalized model descriptor (interface Model in cli.tsx). -/
structure Model where
  id : String
  name : String
  context_length : Int
  pricing : Option Pricing
deriving DecidableEq, Repr

/-- A raw entry of the backend model-listing response, before normalization:
name may be absent. -/
structure RawModel where
  id : String
  name : Option String
  context_length : Int
  pricing : Option Pricing
deriving DecidableEq, Repr

/-- The persisted configuration record as written (interface Config). -/
structure Config where
  apiKey : String
  model : String
  personality : String
deriving DecidableEq, Repr

/-- The persisted configuration record as read back from disk: JSON.parse
imposes no schema, so each field may be absent. -/
structure StoredConfig where
  apiKey : Option String
  model : Option String
  personality : Option String
deriving DecidableEq, Repr

/-- The setup steps of the App component (type SetupStep in cli.tsx).
Spec correspondence: api-key is AwaitingCredential, model-selection is
AwaitingModelChoice, personality-selection is AwaitingPersonalityChoice,
complete is Complete. -/
inductive SetupStep
  | apiKey
  | personalitySelection
  | modelSelection
  | complete
deriving DecidableEq, Repr

/-- Modelled from the spec: the repository file source/prompts.js
(PersonalityCatalog: ASCII_DUCK, getPersonalityById, getPersonalityOptions)
is not under src, only its callers are. Per spec section 4.2 each
PersonalityDefinition has id, label, description, systemPrompt and
welcomeMessage; the ids and descriptions are those listed in the CLI help
text of cli.tsx. The prompt and welcome texts themselves are placeholders here. -/
structure PersonalityDefinition where
  id : String
  label : String
  description : String
  systemPrompt : String
  welcomeMessage : String
deriving DecidableEq, Repr

/-- Modelled from the spec: the designated default personality (section 4.2:
the fallback entry with id cheerful is guaranteed present). -/
def cheerfulPersonality : PersonalityDefinition :=
  { id := "cheerful", label := "Cheerful",
    description := "Upbeat, enthusiastic, and always positive",
    systemPrompt := "system prompt of cheerful",
    welcomeMessage := "welcome message of cheerful" }

/-- Modelled from the spec: the static ordered personality registry
(section 4.2 list), with the six ids from the CLI help text. -/
def personalityCatalog : List PersonalityDefinition :=
  [cheerfulPersonality,
   { id := "sarcastic", label := "Sarcastic",
     description := "Witty, sharp-tongued, but ultimately helpful",
     systemPrompt := "system prompt of sarcastic",
     welcomeMessage := "welcome message of sarcastic" },
   { id := "apathetic", label := "Apathetic",
     description := "Indifferent but competent, gets the job done",
     systemPrompt := "system prompt of apathetic",
     welcomeMessage := "welcome message of apathetic" },
   { id := "deadpan", label := "Deadpan",
     description := "Dry humor with perfect timing and wit",
     systemPrompt := "system prompt of deadpan",
     welcomeMessage := "welcome message of deadpan" },
   { id := "funny", label := "Funny",
     description := "Lighthearted, playful, and genuinely entertaining",
     systemPrompt := "system prompt of funny",
     welcomeMessage := "welcome message of funny" },
   { id := "serious", label := "Serious",
     description := "Professional, focused, and no-nonsense approach",
     systemPrompt := "system prompt of serious",
     welcomeMessage := "welcome message of serious" }]

/-- Modelled from the spec: resolve by exact id match, falling back to the
default entry (section 4.2). -/
def getPersonalityById (id : String) : PersonalityDefinition :=
  (personalityCatalog.find? (fun d => d.id == id)).getD cheerfulPersonality

/-- A selection-menu option (label, value, description). -/
structure PersonalityOption where
  label : String
  value : String
  description : String
deriving DecidableEq, Repr

/-- Modelled from the spec: the ordered option list used by the
personality-selection menu; value is the personality id. -/
def getPersonalityOptions : List PersonalityOption :=
  personalityCatalog.map (fun d =>
    { label := d.label, value := d.id, description := d.description })

/-- The props handed to the App component by the cli entry script. -/
structure Props where
  apiKey : Option String
  model : Option String
  personality : Option String
  reconfigure : Bool
deriving DecidableEq, Repr

/-- The React state of the App component, flattened. -/
structure AppState where
  messages : List Message
  input : String
  isLoading : Bool
  isInputMode : Bool
  setupStep : SetupStep
  tempApiKey : String
  selectedPersonalityIndex : Nat
  availableModels : List Model
  selectedModel : String
  finalApiKey : String
  finalModel : String
  finalPersonality : String
  configLoaded : Bool
deriving DecidableEq, Repr

/-- The initial state of the App component (the useState initializers). -/
def initState (p : Props) : AppState :=
  { messages := []
    input := ""
    isLoading := false
    isInputMode := false
    setupStep := .apiKey
    tempApiKey := ""
    selectedPersonalityIndex := 0
    availableModels := []
    selectedModel := ""
    finalApiKey := jsOr p.apiKey ""
    finalModel := jsOr p.model ""
    finalPersonality := jsOr p.personality "cheerful"
    configLoaded := false }

/-- The loadSavedConfig effect of the App component: command-line key takes
precedence; reconfigure clears the stored record and forces setup; otherwise
a stored record with a truthy apiKey fills the final fields (substituting
defaults for a missing model or personality) and jumps to complete. -/
def loadSavedConfig (p : Props) (saved : Option StoredConfig) (s : AppState) :
    AppState :=
  if truthyO p.apiKey then { s with configLoaded := true }
  else if p.reconfigure then { s with configLoaded := true }
  else
    match saved with
    | some cfg =>
      if truthyO cfg.apiKey then
        { s with
          finalApiKey := cfg.apiKey.getD ""
          finalModel := jsOr cfg.model "meta-llama/llama-3.3-8b-instruct:free"
          finalPersonality := jsOr cfg.personality "cheerful"
          setupStep := .complete
          configLoaded := true }
      else { s with configLoaded := true }
    | none => { s with configLoaded := true }

/-- The needsSetup flag computed on each render. -/
def needsSetup (p : Props) (s : AppState) : Bool :=
  (!truthyO p.apiKey && !truthyS s.finalApiKey) || p.reconfigure

/-- The setup-step effect of the App component (the effect that either skips
setup outright or picks the step for the first missing piece). -/
def setupEffect (p : Props) (s : AppState) : AppState :=
  if !needsSetup p s && s.configLoaded && truthyS s.finalApiKey &&
      truthyS s.finalModel && truthyS s.finalPersonality then
    { s with
      setupStep := .complete
      finalApiKey := jsOr p.apiKey s.finalApiKey
      finalModel := jsOr p.model s.finalModel
      finalPersonality := jsOr p.personality s.finalPersonality }
  else if s.configLoaded && !needsSetup p s then
    if !truthyS s.finalApiKey && !truthyO p.apiKey then
      { s with setupStep := .apiKey }
    else if !truthyS s.finalModel && !truthyO p.model then
      { s with setupStep := .modelSelection }
    else if !truthyS s.finalPersonality && !truthyO p.personality then
      { s with setupStep := .personalitySelection }
    else { s with setupStep := .complete }
  else s

/-- The startup sequence: initial state, then the loadSavedConfig effect,
then the setup-step effect triggered by its state updates. -/
def startupState (p : Props) (saved : Option StoredConfig) : AppState :=
  setupEffect p (loadSavedConfig p saved (initState p))

/-- The save-and-welcome effect run when setupStep is complete: persists the
resolved configuration unless a credential prop was supplied, then replaces
the transcript with the welcome message of the resolved personality and
enables input. The second component is the record handed to saveConfig, or
none when nothing is persisted. -/
def completeEffect (p : Props) (s : AppState) : AppState × Option Config :=
  if s.setupStep = SetupStep.complete ∧ truthyS s.finalApiKey ∧ s.configLoaded then
    let savedRecord : Option Config :=
      if truthyO p.apiKey then none
      else some { apiKey := s.finalApiKey, model := s.finalModel,
                  personality := s.finalPersonality }
    let pc := getPersonalityById (jsOrStr s.finalPersonality "cheerful")
    ({ s with
        messages := [{ role := .assistant, content := some pc.welcomeMessage }]
        isInputMode := true },
     savedRecord)
  else (s, none)

/-- The fixed list of popular model identifiers of fetchAvailableModels. -/
def popularModels : List String :=
  ["anthropic/claude-3.5-sonnet", "openai/gpt-4", "anthropic/claude-3-haiku",
   "openai/gpt-3.5-turbo"]

/-- First index of x in a list, if any. -/
def idxOf? (x : String) : List String → Option Nat
  | [] => none
  | y :: ys => if y == x then some 0 else (idxOf? x ys).map (· + 1)

/-- Models Array.prototype.indexOf: first index, or -1 when absent. -/
def jsIndexOf (l : List String) (x : String) : Int :=
  match idxOf? x l with
  | some i => (i : Int)
  | none => -1

/-- The sort comparator of fetchAvailableModels. -/
def compareModels (a b : Model) : Int :=
  let aIndex := jsIndexOf popularModels a.id
  let bIndex := jsIndexOf popularModels b.id
  if aIndex ≠ -1 ∧ bIndex ≠ -1 then aIndex - bIndex
  else if aIndex ≠ -1 then -1
  else if bIndex ≠ -1 then 1
  else localeCompare a.name b.name

/-- The comparator as a boolean total preorder, as consumed by a stable
sort (Array.prototype.sort is stable). -/
def modelLe (a b : Model) : Bool := compareModels a b ≤ 0

/-- The filter-map-sort-truncate pipeline of fetchAvailableModels, applied
to the data field of the listing response (data.data || []). -/
def fetchModelsList (data : Option (List RawModel)) : List Model :=
  (((((data.getD []).filter
      (fun m => !(strIncludes m.id "free") && m.context_length ≥ 4000)).map
      (fun m => { id := m.id, name := jsOr m.name m.id,
                  context_length := m.context_length,
                  pricing := m.pricing : Model })).mergeSort
      modelLe).take 15)

/-- Outcome of the model-listing fetch: a transport error, or a response
with its ok flag and parsed data field (absent when the body has none). -/
inductive ModelsFetchOutcome
  | transportError
  | response (ok : Bool) (data : Option (List RawModel))
deriving DecidableEq, Repr

/-- Whether a model-listing fetch failed (transport error or non-success
status, both of which reach the catch branch). -/
def fetchFailed : ModelsFetchOutcome → Prop
  | .transportError => True
  | .response ok _ => ok = false

/-- The body of fetchAvailableModels after the request resolves: on success
store the pipeline result, pre-fill the default selection and move to model
selection; on any failure clear the list, set the fixed fallback model and
skip ahead to personality selection. -/
def fetchAvailableModelsStep (s : AppState) (o : ModelsFetchOutcome) :
    AppState :=
  match o with
  | .response true data =>
    { s with
      isLoading := false
      availableModels := fetchModelsList data
      selectedModel := "meta-llama/llama-3.3-8b-instruct:free"
      setupStep := .modelSelection }
  | .response false _ =>
    { s with
      isLoading := false
      availableModels := []
      finalModel := "anthropic/claude-3.5-sonnet"
      setupStep := .personalitySelection }
  | .transportError =>
    { s with
      isLoading := false
      availableModels := []
      finalModel := "anthropic/claude-3.5-sonnet"
      setupStep := .personalitySelection }

/-- handleApiKeySubmit: no-op on an empty trimmed key, otherwise record the
trimmed key and run the model fetch (whose outcome o resolves later). -/
def handleApiKeySubmit (s : AppState) (o : ModelsFetchOutcome) : AppState :=
  if jsTrim s.tempApiKey == "" then s
  else
    fetchAvailableModelsStep
      { s with finalApiKey := jsTrim s.tempApiKey, isLoading := true } o

/-- The keys the useInput handler distinguishes during setup. -/
inductive SetupKey
  | upArrow
  | downArrow
  | keyReturn
deriving DecidableEq, Repr

/-- The useInput handler: inactive once setup is complete; during
personality selection the arrows move the cursor with wrap-around and the
confirm key commits the highlighted option and completes setup. -/
def handleSetupInput (s : AppState) (k : SetupKey) : AppState :=
  if s.setupStep = SetupStep.complete then s
  else if s.setupStep = SetupStep.personalitySelection then
    match k with
    | .upArrow =>
      { s with selectedPersonalityIndex :=
          if s.selectedPersonalityIndex > 0 then s.selectedPersonalityIndex - 1
          else getPersonalityOptions.length - 1 }
    | .downArrow =>
      { s with selectedPersonalityIndex :=
          if s.selectedPersonalityIndex < getPersonalityOptions.length - 1 then
            s.selectedPersonalityIndex + 1
          else 0 }
    | .keyReturn =>
      match getPersonalityOptions[s.selectedPersonalityIndex]? with
      | some opt =>
        { s with finalPersonality := opt.value, setupStep := .complete }
      | none => s
  else s

/-- The message object of a completion choice; content may be absent. -/
structure MessageObj where
  content : Option String
deriving DecidableEq, Repr

/-- One completion choice; the message object may be absent. -/
structure ChoiceObj where
  message : Option MessageObj
deriving DecidableEq, Repr

/-- The parsed completion response body; choices may be absent. -/
structure CompletionBody where
  choices : Option (List ChoiceObj)
deriving DecidableEq, Repr

/-- Evaluates the JS expression data.choices[0].message.content: property
access on undefined throws (modelled as Except.error carrying the runtime
error message), while a present message object with an absent content field
yields the undefined value itself (ok none). -/
def extractContent (b : CompletionBody) : Except String (Option String) :=
  match b.choices with
  | none => .error "Cannot read properties of undefined (reading 0)"
  | some cs =>
    match cs.head? with
    | none => .error "Cannot read properties of undefined (reading message)"
    | some c =>
      match c.message with
      | none =>
        .error "Cannot read properties of undefined (reading content)"
      | some m => .ok m.content

/-- Outcome of the chat completion request: transport error, or a response
with ok flag, status, status text and parsed body. -/
inductive CompletionOutcome
  | transportError (msg : String)
  | httpResponse (ok : Bool) (status : Nat) (statusText : String)
      (body : CompletionBody)
deriving DecidableEq, Repr

/-- The synthetic error text template of the sendMessage catch branch. -/
def errorText (msg : String) : String :=
  "❌ Sorry, I encountered an error: " ++ msg ++
    ". Please check your API key and try again."

/-- The error message string an outcome produces in the catch branch, or
none when the try block completes without throwing. -/
def outcomeError : CompletionOutcome → Option String
  | .transportError msg => some msg
  | .httpResponse ok status statusText body =>
    if ok then
      match extractContent body with
      | .error msg => some msg
      | .ok _ => none
    else some ("OpenRouter API error: " ++ toString status ++ " " ++ statusText)

/-- The successfully extracted content of an outcome, when the try block
completes: some c where c is the (possibly undefined) content value. -/
def outcomeContent : CompletionOutcome → Option (Option String)
  | .transportError _ => none
  | .httpResponse ok _ _ body =>
    if ok then
      match extractContent body with
      | .error _ => none
      | .ok c => some c
    else none

/-- The outgoing chat completion request body. -/
structure ChatRequest where
  model : String
  messages : List Message
deriving DecidableEq, Repr

/-- Appends the synthetic assistant error message of the catch branch. -/
def appendErrorMessage (s : AppState) (msg : String) : AppState :=
  { s with messages :=
      s.messages ++ [{ role := .assistant, content := some (errorText msg) }] }

/-- sendMessage: guarded no-op on empty trimmed input, busy session or
missing credential; otherwise appends the user message, issues the request
(returned as the second component), and on resolution either appends the
extracted assistant content or the synthetic error message, finally
clearing the busy flag. The function is total: no outcome escapes it. -/
def sendMessage (s : AppState) (o : CompletionOutcome) :
    AppState × Option ChatRequest :=
  if jsTrim s.input == "" || s.isLoading || !truthyS s.finalApiKey then
    (s, none)
  else
    let userMessage : Message := { role := .user, content := some (jsTrim s.input) }
    let pc := getPersonalityById (jsOrStr s.finalPersonality "cheerful")
    let req : ChatRequest :=
      { model := s.finalModel
        messages :=
          { role := .system, content := some pc.systemPrompt } ::
            (s.messages ++ [userMessage]) }
    let s1 := { s with
      messages := s.messages ++ [userMessage]
      input := ""
      isLoading := true }
    let s2 : AppState :=
      match o with
      | .transportError msg => appendErrorMessage s1 msg
      | .httpResponse ok status statusText body =>
        if ok then
          match extractContent body with
          | .error msg => appendErrorMessage s1 msg
          | .ok c =>
            { s1 with messages :=
                s1.messages ++ [({ role := .assistant, content := c } : Message)] }
        else
          appendErrorMessage s1
            ("OpenRouter API error: " ++ toString status ++ " " ++ statusText)
    ({ s2 with isLoading := false }, some req)

/-- The cli entry script: flag takes precedence over the environment. -/
def resolveApiKey (flagApiKey envKey : Option String) : Option String :=
  if truthyO flagApiKey then flagApiKey else envKey

/-- The props the cli entry script passes to App: with reconfigure the
resolved credential is withheld to force setup. -/
def appProps (flagApiKey envKey flagModel flagPersonality : Option String)
    (reconfigure : Bool) : Props :=
  { apiKey := if reconfigure then none else resolveApiKey flagApiKey envKey
    model := flagModel
    personality := flagPersonality
    reconfigure := reconfigure }

/-- Whether a model id is on the fixed popular list. -/
def isPopular (m : Model) : Bool := (idxOf? m.id popularModels).isSome

/-- Position of a model id on the popular list (list length if absent). -/
def popRank (m : Model) : Nat :=
  (idxOf? m.id popularModels).getD popularModels.length

/-- Alphabetical comparison of display names in the modelled collation. -/
def nameLe (a b : String) : Prop := cmpCharList a.data b.data ≠ Ordering.gt

/-- The ordering the model-catalog claim asserts between any two entries of
the result, in result order: popular entries precede the rest, popular
entries keep the popular-list order, and non-popular entries are
alphabetical by display name. -/
def claimOrder (a b : Model) : Prop :=
  (isPopular b = true → isPopular a = true) ∧
  (isPopular a = true → isPopular b = true → popRank a ≤ popRank b) ∧
  (isPopular a = false → isPopular b = false → nameLe a.name b.name)

/-- The boolean filter condition, restated on the normalized descriptor. -/
def keptModel (m : Model) : Bool :=
  !(strIncludes m.id "free") && m.context_length ≥ 4000

/-- A representative chat-ready state: setup complete, idle, credential and
model resolved. Used as the concrete instance in witness statements. -/
def sampleChatState : AppState :=
  { messages := []
    input := "hi"
    isLoading := false
    isInputMode := true
    setupStep := .complete
    tempApiKey := ""
    selectedPersonalityIndex := 0
    availableModels := []
    selectedModel := ""
    finalApiKey := "k1"
    finalModel := "openai/gpt-4"
    finalPersonality := "cheerful"
    configLoaded := true }

/-- The sample state placed at the credential step with a pending key. -/
def credStepState : AppState :=
  { sampleChatState with setupStep := .apiKey, tempApiKey := " k1 " }

/-- The sample state placed at the personality-selection step. -/
def personalityStepState : AppState :=
  { sampleChatState with setupStep := .personalitySelection }

/-- The sample state with whitespace-only pending input. -/
def blankInputState : AppState :=
  { sampleChatState with input := "   " }

/-- The sample state whose credential came from the environment variable. -/
def envChatState : AppState :=
  { sampleChatState with finalApiKey := "k-env" }

lemma cmpCharList_swap : ∀ (a b : List Char),
    cmpCharList b a = (cmpCharList a b).swap := by
  intro a
  induction a with
  | nil => intro b; cases b <;> rfl
  | cons x xs ih =>
    intro b
    cases b with
    | nil => rfl
    | cons y ys =>
      simp only [cmpCharList]
      split_ifs <;> first | rfl | omega | exact ih ys

lemma cmpCharList_ne_gt_trans : ∀ (a b c : List Char),
    cmpCharList a b ≠ Ordering.gt → cmpCharList b c ≠ Ordering.gt →
    cmpCharList a c ≠ Ordering.gt := by
  intro a
  induction a with
  | nil => intro b c _ _; cases c <;> simp [cmpCharList]
  | cons x xs ih =>
    intro b c h1 h2
    cases b with
    | nil => exact absurd rfl h1
    | cons y ys =>
      cases c with
      | nil => exact absurd rfl h2
      | cons z zs =>
        simp only [cmpCharList] at h1 h2 ⊢
        split_ifs at h1 h2 ⊢ <;>
          first
          | exact ih ys zs h1 h2
          | omega
          | (exfalso; omega)
          | simp_all

lemma localeCompare_nonpos_iff (a b : String) :
    localeCompare a b ≤ 0 ↔ cmpCharList a.data b.data ≠ Ordering.gt := by
  unfold localeCompare
  rcases h : cmpCharList a.data b.data <;> simp [h]

lemma localeCompare_trans (a b c : String) (h1 : localeCompare a b ≤ 0)
    (h2 : localeCompare b c ≤ 0) : localeCompare a c ≤ 0 := by
  rw [localeCompare_nonpos_iff] at h1 h2 ⊢
  exact cmpCharList_ne_gt_trans _ _ _ h1 h2

lemma localeCompare_total (a b : String) :
    localeCompare a b ≤ 0 ∨ localeCompare b a ≤ 0 := by
  rw [localeCompare_nonpos_iff, localeCompare_nonpos_iff, cmpCharList_swap]
  rcases h : cmpCharList b.data a.data <;> simp [h, Ordering.swap]

lemma modelLe_trans : ∀ (a b c : Model), modelLe a b = true →
    modelLe b c = true → modelLe a c = true := by
  intro a b c h1 h2
  simp only [modelLe, decide_eq_true_eq, compareModels] at h1 h2 ⊢
  split_ifs at h1 h2 ⊢ <;>
    first
    | omega
    | exact localeCompare_trans _ _ _ h1 h2

lemma modelLe_total : ∀ (a b : Model), (modelLe a b || modelLe b a) = true := by
  intro a b
  simp only [modelLe, Bool.or_eq_true, decide_eq_true_eq, compareModels]
  split_ifs <;> first | omega | exact localeCompare_total a.name b.name

lemma modelLe_claimOrder (a b : Model) (h : modelLe a b = true) :
    claimOrder a b := by
  simp only [modelLe, decide_eq_true_eq, compareModels, jsIndexOf] at h
  unfold claimOrder
  rcases ha : idxOf? a.id popularModels with _ | i <;>
    rcases hb : idxOf? b.id popularModels with _ | j <;>
    simp only [ha, hb] at h
  · -- neither id is popular: the comparator is the name comparison
    norm_num at h
    refine ⟨?_, ?_, ?_⟩
    · intro hx; simp [isPopular, hb] at hx
    · intro hx _; simp [isPopular, ha] at hx
    · intro _ _; exact (localeCompare_nonpos_iff _ _).mp h
  · -- a not popular, b popular: the comparator returned 1, contradiction
    exfalso
    have hj : ((j : Int)) ≠ -1 := by omega
    rw [if_neg (by simp), if_neg (by simp), if_pos hj] at h
    omega
  · -- a popular, b not popular: all three parts are vacuous or direct
    refine ⟨?_, ?_, ?_⟩
    · intro hx; simp [isPopular, hb] at hx
    · intro _ hy; simp [isPopular, hb] at hy
    · intro hx _; simp [isPopular, ha] at hx
  · -- both popular: the comparator compared the popular indices
    have hi : ((i : Int)) ≠ -1 := by omega
    have hj : ((j : Int)) ≠ -1 := by omega
    rw [if_pos ⟨hi, hj⟩] at h
    refine ⟨?_, ?_, ?_⟩
    · intro _; simp [isPopular, ha]
    · intro _ _; simp only [popRank, ha, hb, Option.getD_some]; omega
    · intro hx; simp [isPopular, ha] at hx

lemma mem_fetchModelsList (data : Option (List RawModel)) (m : Model)
    (hm : m ∈ fetchModelsList data) : keptModel m = true := by
  unfold fetchModelsList at hm
  have h1 : m ∈ (((data.getD []).filter
      (fun r => !(strIncludes r.id "free") && r.context_length ≥ 4000)).map
      (fun r => { id := r.id, name := jsOr r.name r.id,
                  context_length := r.context_length,
                  pricing := r.pricing : Model })).mergeSort modelLe :=
    (List.take_sublist _ _).mem hm
  rw [List.mem_mergeSort] at h1
  rcases List.mem_map.mp h1 with ⟨raw, hraw, heq⟩
  have h2 := (List.mem_filter.mp hraw).2
  subst heq
  simpa [keptModel] using h2

lemma fetchModelsList_pairwise (data : Option (List RawModel)) :
    (fetchModelsList data).Pairwise claimOrder := by
  unfold fetchModelsList
  refine List.Pairwise.sublist (List.take_sublist _ _) ?_
  exact (List.sorted_mergeSort modelLe_trans modelLe_total _).imp
    (fun h => modelLe_claimOrder _ _ h)

lemma fetchModelsList_length (data : Option (List RawModel)) :
    (fetchModelsList data).length ≤ 15 := by
  unfold fetchModelsList
  exact List.length_take_le _ _

lemma truthyS_jsOr (o : Option String) (d : String)
    (hd : truthyS d = true) : truthyS (jsOr o d) = true := by
  cases o with
  | none => exact hd
  | some s => unfold jsOr; cases h : truthyS s <;> simp [h, hd]

lemma jsOr_none (d : String) : jsOr none d = d := rfl

/-- C4: for every backend model-listing response, the fetchAvailableModels
pipeline returns a list that keeps only entries whose id does not contain
the free marker and whose context length is at least 4000, that is pairwise
ordered with popular ids first in popular-list order and the remaining
entries alphabetically by display name, and that has at most 15 entries. -/
theorem c4_model_catalog_pipeline (data : Option (List RawModel)) :
    (fetchModelsList data).all keptModel = true
    ∧ (fetchModelsList data).Pairwise claimOrder
    ∧ (fetchModelsList data).length ≤ 15 := by
  refine ⟨?_, fetchModelsList_pairwise data, fetchModelsList_length data⟩
  rw [List.all_eq_true]
  intro m hm
  exact mem_fetchModelsList data m hm

/-- C5: a failing model-listing fetch (transport error or non-success
status) is not propagated: the available-model list becomes empty, the
chosen model becomes the fixed fallback id, and the machine moves from the
credential step directly to personality selection, bypassing model
selection. -/
theorem c5_fetch_failure_fallback (s : AppState) (o : ModelsFetchOutcome)
    (hstep : s.setupStep = SetupStep.apiKey)
    (hkey : jsTrim s.tempApiKey ≠ "")
    (hfail : fetchFailed o) :
    (handleApiKeySubmit s o).setupStep = SetupStep.personalitySelection
    ∧ (handleApiKeySubmit s o).setupStep ≠ SetupStep.modelSelection
    ∧ (handleApiKeySubmit s o).availableModels = []
    ∧ (handleApiKeySubmit s o).finalModel = "anthropic/claude-3.5-sonnet" := by
  have hg : (jsTrim s.tempApiKey == "") = false := by
    rw [beq_eq_false_iff_ne]; exact hkey
  cases o with
  | transportError =>
    simp [handleApiKeySubmit, hg, fetchAvailableModelsStep]
  | response ok data =>
    have hok : ok = false := hfail
    subst hok
    simp [handleApiKeySubmit, hg, fetchAvailableModelsStep]

/-- Witness for C5 at a concrete credential-step state and failure. -/
theorem c5_fetch_failure_fallback_witness :
    credStepState.setupStep = SetupStep.apiKey
    ∧ jsTrim " k1 " ≠ ""
    ∧ (handleApiKeySubmit credStepState .transportError).setupStep =
        SetupStep.personalitySelection
    ∧ (handleApiKeySubmit credStepState .transportError).finalModel =
        "anthropic/claude-3.5-sonnet" := by
  have h := c5_fetch_failure_fallback credStepState
    .transportError (by decide) (by decide) trivial
  exact ⟨by decide, by decide, h.1, h.2.2.2⟩

/-- C7: in the personality-selection state the cursor wraps in both
directions over the ordered option list, and confirm commits the
highlighted id and completes setup. -/
theorem c7_personality_cursor_cyclic (s : AppState)
    (hstep : s.setupStep = SetupStep.personalitySelection)
    (hi : s.selectedPersonalityIndex < getPersonalityOptions.length) :
    ((handleSetupInput s .upArrow).selectedPersonalityIndex =
      if s.selectedPersonalityIndex = 0 then getPersonalityOptions.length - 1
      else s.selectedPersonalityIndex - 1)
    ∧ ((handleSetupInput s .downArrow).selectedPersonalityIndex =
      if s.selectedPersonalityIndex = getPersonalityOptions.length - 1 then 0
      else s.selectedPersonalityIndex + 1)
    ∧ (handleSetupInput s .keyReturn).finalPersonality =
        (getPersonalityOptions.get ⟨s.selectedPersonalityIndex, hi⟩).value
    ∧ (handleSetupInput s .keyReturn).setupStep = SetupStep.complete := by
  have hq : getPersonalityOptions[s.selectedPersonalityIndex]? =
      some (getPersonalityOptions.get ⟨s.selectedPersonalityIndex, hi⟩) := by
    rw [List.getElem?_eq_getElem hi, List.get_eq_getElem]
  refine ⟨?_, ?_, ?_, ?_⟩ <;>
    simp only [handleSetupInput, hstep, hq] <;>
    norm_num <;>
    split_ifs <;>
    simp_all <;>
    omega

/-- Witness for C7 at cursor index 0 of the six-entry option list. -/
theorem c7_personality_cursor_cyclic_witness :
    personalityStepState.setupStep = SetupStep.personalitySelection
    ∧ (0 : Nat) < getPersonalityOptions.length
    ∧ (handleSetupInput personalityStepState .upArrow).selectedPersonalityIndex = 5
    ∧ (handleSetupInput personalityStepState .downArrow).selectedPersonalityIndex = 1
    ∧ (handleSetupInput personalityStepState .keyReturn).finalPersonality =
        "cheerful"
    ∧ (handleSetupInput personalityStepState .keyReturn).setupStep =
        SetupStep.complete := by
  have h := c7_personality_cursor_cyclic personalityStepState
    (by decide) (by decide)
  exact ⟨by decide, by decide, h.1.trans (by decide), h.2.1.trans (by decide),
    h.2.2.1.trans (by decide), h.2.2.2⟩

/-- C8: a submit with empty trimmed input, or while busy, or without a
resolved credential, is a complete no-op: the state is unchanged and no
request is issued. -/
theorem c8_submit_noop (s : AppState) (o : CompletionOutcome)
    (h : jsTrim s.input = "" ∨ s.isLoading = true ∨
      truthyS s.finalApiKey = false) :
    sendMessage s o = (s, none) := by
  have hc : (jsTrim s.input == "" || s.isLoading || !truthyS s.finalApiKey)
      = true := by
    rcases h with h | h | h <;> simp [h]
  simp [sendMessage, hc]

/-- Witness for C8: whitespace-only input produces no change. -/
theorem c8_submit_noop_witness :
    jsTrim "   " = ""
    ∧ sendMessage blankInputState (.transportError "boom") =
      (blankInputState, none) := by
  exact ⟨by decide,
    c8_submit_noop blankInputState (.transportError "boom")
      (Or.inl (by decide))⟩

/-- C6: the outgoing completion request consists of the resolved model id
and the message list: one system entry with the active personality system
prompt, then the full prior transcript in order, then the new user message
last. -/
theorem c6_request_construction (s : AppState) (o : CompletionOutcome)
    (hin : jsTrim s.input ≠ "") (hbusy : s.isLoading = false)
    (hkey : truthyS s.finalApiKey = true) :
    (sendMessage s o).2 = some
      { model := s.finalModel
        messages :=
          { role := .system
            content := some (getPersonalityById
              (jsOrStr s.finalPersonality "cheerful")).systemPrompt } ::
          (s.messages ++
            [{ role := .user, content := some (jsTrim s.input) }]) } := by
  have hg : (jsTrim s.input == "") = false := by
    rw [beq_eq_false_iff_ne]; exact hin
  simp [sendMessage, hg, hbusy, hkey]

/-- Witness for C6 at the sample state. -/
theorem c6_request_construction_witness :
    jsTrim "hi" ≠ "" ∧ sampleChatState.isLoading = false
    ∧ truthyS "k1" = true
    ∧ (sendMessage sampleChatState (.transportError "boom")).2 = some
      { model := "openai/gpt-4"
        messages :=
          [{ role := .system, content := some "system prompt of cheerful" },
           { role := .user, content := some "hi" }] } := by
  have h := c6_request_construction sampleChatState (.transportError "boom")
    (by decide) (by decide) (by decide)
  exact ⟨by decide, by decide, by decide, h.trans (by decide)⟩

/-- C2 (amended): on entry to the complete state the configuration is
persisted if and only if the App received no credential prop, i.e. iff
neither the api-key flag nor the environment variable supplied a credential
(or reconfigure discarded it); in particular an explicitly flag-overridden
configuration is never saved. The original claim additionally asserted that
a configuration whose credential came from the environment variable is
persisted; the code does not persist it (see the counterexample). -/
theorem c2_persist_iff_no_credential_prop (p : Props) (s : AppState)
    (hstep : s.setupStep = SetupStep.complete)
    (hkey : truthyS s.finalApiKey = true)
    (hloaded : s.configLoaded = true) :
    ((completeEffect p s).2 =
      if truthyO p.apiKey then none
      else some { apiKey := s.finalApiKey, model := s.finalModel,
                  personality := s.finalPersonality })
    ∧ (∀ flagKey envKey m per, truthyO flagKey = true →
        p = appProps flagKey envKey m per false →
        (completeEffect p s).2 = none) := by
  constructor
  · simp [completeEffect, hstep, hkey, hloaded]
  · intro flagKey envKey m per hflag hp
    subst hp
    simp [completeEffect, hstep, hkey, hloaded, appProps, resolveApiKey, hflag]

/-- Witness for C2 with an explicit flag credential: nothing is saved. -/
theorem c2_persist_iff_no_credential_prop_witness :
    sampleChatState.setupStep = SetupStep.complete
    ∧ truthyS sampleChatState.finalApiKey = true
    ∧ sampleChatState.configLoaded = true
    ∧ (completeEffect (appProps (some "k1") none none none false)
        sampleChatState).2 = none := by
  have h := c2_persist_iff_no_credential_prop
    (appProps (some "k1") none none none false) sampleChatState
    (by decide) (by decide) (by decide)
  exact ⟨by decide, by decide, by decide, h.1.trans (by decide)⟩

/-- C2 counterexample: the credential came from the environment variable
(not an explicit override), the claim says such a configuration is
persisted, but the code invokes no save: the credential prop handed to the
App is truthy whether it stems from the flag or from the environment. -/
theorem c2_counterexample :
    (appProps none (some "k-env") none none false).apiKey = some "k-env"
    ∧ (completeEffect (appProps none (some "k-env") none none false)
        envChatState).2 = none
    ∧ envChatState.setupStep = SetupStep.complete
    ∧ truthyS envChatState.finalApiKey = true
    ∧ envChatState.configLoaded = true := by decide

/-- C9: on entry to the complete state the transcript holds exactly one
message, an assistant message carrying the resolved personality welcome
text, and turn input is enabled. -/
theorem c9_welcome_on_complete (p : Props) (s : AppState)
    (hstep : s.setupStep = SetupStep.complete)
    (hkey : truthyS s.finalApiKey = true)
    (hloaded : s.configLoaded = true) :
    (completeEffect p s).1.messages =
      [{ role := .assistant
         content := some (getPersonalityById
           (jsOrStr s.finalPersonality "cheerful")).welcomeMessage }]
    ∧ (completeEffect p s).1.messages.length = 1
    ∧ (completeEffect p s).1.isInputMode = true := by
  simp [completeEffect, hstep, hkey, hloaded]

/-- Witness for C9 at the sample state without overrides. -/
theorem c9_welcome_on_complete_witness :
    sampleChatState.setupStep = SetupStep.complete
    ∧ truthyS sampleChatState.finalApiKey = true
    ∧ sampleChatState.configLoaded = true
    ∧ (completeEffect (appProps none none none none false)
        sampleChatState).1.messages =
      [{ role := .assistant, content := some "welcome message of cheerful" }]
    ∧ (completeEffect (appProps none none none none false)
        sampleChatState).1.isInputMode = true := by
  have h := c9_welcome_on_complete (appProps none none none none false)
    sampleChatState (by decide) (by decide) (by decide)
  exact ⟨by decide, by decide, by decide, h.1.trans (by decide), h.2.2⟩

/-- C10: when reconfigure is requested, the credential from the flag or the
environment is discarded before the machine starts, setup begins at the
credential step for every persisted record, and the configuration resolved
afterwards is persisted on completion even when an explicit flag credential
was present on the command line. -/
theorem c10_reconfigure_discards_credential
    (flagKey envKey m per : Option String) (saved : Option StoredConfig)
    (s : AppState)
    (hstep : s.setupStep = SetupStep.complete)
    (hkey : truthyS s.finalApiKey = true)
    (hloaded : s.configLoaded = true) :
    (appProps flagKey envKey m per true).apiKey = none
    ∧ (startupState (appProps flagKey envKey m per true) saved).setupStep =
        SetupStep.apiKey
    ∧ (completeEffect (appProps flagKey envKey m per true) s).2 =
        some { apiKey := s.finalApiKey, model := s.finalModel,
               personality := s.finalPersonality } := by
  refine ⟨rfl, ?_, ?_⟩
  · simp [startupState, loadSavedConfig, setupEffect, needsSetup, initState,
      appProps, truthyO]
  · simp [completeEffect, hstep, hkey, hloaded, appProps, truthyO]

/-- Witness for C10 with an explicit flag credential and a stored record. -/
theorem c10_reconfigure_discards_credential_witness :
    sampleChatState.setupStep = SetupStep.complete
    ∧ truthyS sampleChatState.finalApiKey = true
    ∧ sampleChatState.configLoaded = true
    ∧ (appProps (some "k-flag") (some "k-env") none none true).apiKey = none
    ∧ (startupState (appProps (some "k-flag") (some "k-env") none none true)
        (some { apiKey := some "old", model := some "m",
                personality := some "p" })).setupStep = SetupStep.apiKey
    ∧ (completeEffect (appProps (some "k-flag") (some "k-env") none none true)
        sampleChatState).2 =
      some { apiKey := "k1", model := "openai/gpt-4",
             personality := "cheerful" } := by
  have h := c10_reconfigure_discards_credential (some "k-flag") (some "k-env")
    none none
    (some { apiKey := some "old", model := some "m", personality := some "p" })
    sampleChatState (by decide) (by decide) (by decide)
  exact ⟨by decide, by decide, by decide, h.1, h.2.1, h.2.2.trans (by decide)⟩

/-- C1 counterexample: a persisted record with a credential and a
personality but no model. The claim requires the machine to enter the
model-selection state (the state for the first missing field); the code
instead substitutes the built-in default model during loadSavedConfig and
enters complete. -/
theorem c1_counterexample :
    (startupState
      { apiKey := none, model := none, personality := none,
        reconfigure := false }
      (some { apiKey := some "k1", model := none,
              personality := some "cheerful" })).setupStep = SetupStep.complete
    ∧ (startupState
      { apiKey := none, model := none, personality := none,
        reconfigure := false }
      (some { apiKey := some "k1", model := none,
              personality := some "cheerful" })).setupStep ≠
        SetupStep.modelSelection
    ∧ (startupState
      { apiKey := none, model := none, personality := none,
        reconfigure := false }
      (some { apiKey := some "k1", model := none,
              personality := some "cheerful" })).finalModel =
        "meta-llama/llama-3.3-8b-instruct:free" := by decide

/-- C1 (amended): for every persisted record that has a credential but is
missing one or two of the fields model and personality, with no override
replacing them, the machine does not enter the state for the missing
field: loadSavedConfig substitutes the built-in defaults (the free llama
model id for model, cheerful for personality) and the machine enters
complete directly, skipping every interactive step. -/
theorem c1_partial_config_defaults (p : Props) (cfg : StoredConfig)
    (hp : p.apiKey = none) (hr : p.reconfigure = false)
    (hm : p.model = none) (hpers : p.personality = none)
    (hk : truthyO cfg.apiKey = true) :
    (startupState p (some cfg)).setupStep = SetupStep.complete
    ∧ (startupState p (some cfg)).finalModel =
        jsOr cfg.model "meta-llama/llama-3.3-8b-instruct:free"
    ∧ (startupState p (some cfg)).finalPersonality =
        jsOr cfg.personality "cheerful" := by
  obtain ⟨k, hk1⟩ : ∃ k, cfg.apiKey = some k := by
    cases hck : cfg.apiKey with
    | none => rw [hck] at hk; simp [truthyO] at hk
    | some k => exact ⟨k, rfl⟩
  have hk2 : truthyS k = true := by rw [hk1] at hk; exact hk
  have hmod : truthyS (jsOr cfg.model "meta-llama/llama-3.3-8b-instruct:free")
      = true := truthyS_jsOr _ _ (by decide)
  have hper : truthyS (jsOr cfg.personality "cheerful") = true :=
    truthyS_jsOr _ _ (by decide)
  simp [startupState, loadSavedConfig, setupEffect, needsSetup, initState,
    hp, hr, hm, hpers, hk1, hk2, hmod, hper, truthyO, jsOr_none]

/-- Witness for C1 (amended) at a record missing only the model field. -/
theorem c1_partial_config_defaults_witness :
    truthyO (some "k1") = true
    ∧ (startupState
        { apiKey := none, model := none, personality := none,
          reconfigure := false }
        (some { apiKey := some "k1", model := none,
                personality := some "sarcastic" })).setupStep =
        SetupStep.complete
    ∧ (startupState
        { apiKey := none, model := none, personality := none,
          reconfigure := false }
        (some { apiKey := some "k1", model := none,
                personality := some "sarcastic" })).finalModel =
        "meta-llama/llama-3.3-8b-instruct:free"
    ∧ (startupState
        { apiKey := none, model := none, personality := none,
          reconfigure := false }
        (some { apiKey := some "k1", model := none,
                personality := some "sarcastic" })).finalPersonality =
        "sarcastic" := by
  have h := c1_partial_config_defaults
    { apiKey := none, model := none, personality := none,
      reconfigure := false }
    { apiKey := some "k1", model := none, personality := some "sarcastic" }
    rfl rfl rfl rfl (by decide)
  exact ⟨by decide, h.1, h.2.1.trans (by decide), h.2.2.trans (by decide)⟩

/-- C3 (amended): for every completion attempt that reaches the request and
fails with a transport error, a non-success status, or a body in which
choices, the first choice, or its message object is missing, the session
appends exactly one synthetic assistant message carrying the error text
after the user message, never raises (sendMessage is total), and the busy
flag returns to false; on an attempt whose body yields a content value
(including the undefined value when the message object is present but its
content field is absent), that value is appended as an assistant message.
The original claim also counted an absent choices[0].message.content with a
present message object as an error-message case; the code appends it as an
ordinary assistant message with undefined content (see counterexample). -/
theorem c3_completion_error_handling (s : AppState) (o : CompletionOutcome)
    (hin : jsTrim s.input ≠ "") (hbusy : s.isLoading = false)
    (hkey : truthyS s.finalApiKey = true) :
    ((sendMessage s o).1.isLoading = false)
    ∧ (∀ m, outcomeError o = some m →
        (sendMessage s o).1.messages =
          s.messages ++
            [{ role := .user, content := some (jsTrim s.input) },
             { role := .assistant, content := some (errorText m) }])
    ∧ (∀ c, outcomeContent o = some c →
        (sendMessage s o).1.messages =
          s.messages ++
            [{ role := .user, content := some (jsTrim s.input) },
             { role := .assistant, content := c }]) := by
  have hg : (jsTrim s.input == "") = false := by
    rw [beq_eq_false_iff_ne]; exact hin
  cases o with
  | transportError msg =>
    refine ⟨?_, ?_, ?_⟩
    · simp [sendMessage, hg, hbusy, hkey, appendErrorMessage]
    · intro m hm
      simp only [outcomeError, Option.some_inj] at hm
      subst hm
      simp [sendMessage, hg, hbusy, hkey, appendErrorMessage]
    · intro c hc
      simp [outcomeContent] at hc
  | httpResponse ok status statusText body =>
    cases ok with
    | false =>
      refine ⟨?_, ?_, ?_⟩
      · simp [sendMessage, hg, hbusy, hkey, appendErrorMessage]
      · intro m hm
        simp only [outcomeError, if_neg, Bool.false_eq_true,
          Option.some_inj, reduceIte] at hm
        subst hm
        simp [sendMessage, hg, hbusy, hkey, appendErrorMessage]
      · intro c hc
        simp [outcomeContent] at hc
    | true =>
      rcases hx : extractContent body with msg | c0
      · refine ⟨?_, ?_, ?_⟩
        · simp [sendMessage, hg, hbusy, hkey, hx, appendErrorMessage]
        · intro m hm
          simp only [outcomeError, reduceIte, hx, Option.some_inj] at hm
          subst hm
          simp [sendMessage, hg, hbusy, hkey, hx, appendErrorMessage]
        · intro c hc
          simp [outcomeContent, hx] at hc
      · refine ⟨?_, ?_, ?_⟩
        · simp [sendMessage, hg, hbusy, hkey, hx]
        · intro m hm
          simp [outcomeError, hx] at hm
        · intro c hc
          simp only [outcomeContent, reduceIte, hx, Option.some_inj] at hc
          subst hc
          simp [sendMessage, hg, hbusy, hkey, hx]

/-- Witness for C3 (amended) at a 500 response. -/
theorem c3_completion_error_handling_witness :
    jsTrim "hi" ≠ "" ∧ sampleChatState.isLoading = false
    ∧ truthyS sampleChatState.finalApiKey = true
    ∧ (sendMessage sampleChatState (.httpResponse false 500
        "Internal Server Error" { choices := none })).1.messages =
      [{ role := .user, content := some "hi" },
       { role := .assistant, content := some (errorText
         "OpenRouter API error: 500 Internal Server Error") }]
    ∧ (sendMessage sampleChatState (.httpResponse false 500
        "Internal Server Error" { choices := none })).1.isLoading = false := by
  have h := c3_completion_error_handling sampleChatState
    (.httpResponse false 500 "Internal Server Error" { choices := none })
    (by decide) (by decide) (by decide)
  exact ⟨by decide, by decide, by decide,
    (h.2.1 "OpenRouter API error: 500 Internal Server Error"
      (by decide)).trans (by decide), h.1⟩

/-- C3 counterexample: a success response whose first choice has a message
object without a content field. The claim counts this as a failure that
must append a synthetic assistant error message; the code instead appends
an assistant message whose content is the undefined value, with no error
description at all. -/
theorem c3_counterexample :
    (sendMessage sampleChatState (.httpResponse true 200 "OK"
      { choices := some [{ message := some { content := none } }] })).1.messages
      = [{ role := .user, content := some "hi" },
         { role := .assistant, content := none }] := by decide

end Duckli
